import Mathlib

/-!
Verification development for the Fixit repository (YouTube scraping scripts
`test.py` and `test2.py`).  The Python functions relevant to the frozen
claims are shallowly embedded as Lean functions below; exceptions are
modelled by `Option`/`Except` results and the external world (browser,
callbacks, filesystem) by an explicit `World` record of interaction
outcomes.
-/

/-- Python `str.split(sep)` for a single-character separator, processed over
the character list (structural recursion, so the kernel can evaluate it):
splitting never drops fields, and splitting the empty string yields one
empty field, exactly as in Python. -/
def splitOnCharAux (sep : Char) : List Char → List Char → List String
  | [], acc => [String.mk acc.reverse]
  | c :: cs, acc =>
      if c = sep then String.mk acc.reverse :: splitOnCharAux sep cs []
      else splitOnCharAux sep cs (c :: acc)

/-- `s.split(sep)` from Python for a one-character separator. -/
def pySplit (sep : Char) (s : String) : List String :=
  splitOnCharAux sep s.toList []

/-- Python `str.strip()`: drop whitespace from both ends.  (Lean's
`Char.isWhitespace` covers space, tab, CR, LF; Python strips some further
Unicode space characters, which no claim exercises.) -/
def pyStrip (s : String) : String :=
  String.mk
    (((s.toList.dropWhile Char.isWhitespace).reverse.dropWhile
        Char.isWhitespace).reverse)

/-- A non-empty run of ASCII decimal digits. -/
def allDigits (l : List Char) : Bool :=
  !l.isEmpty && l.all (fun c => c.isDigit)

/-- Value of a run of decimal digits. -/
def decDigitsToNat (l : List Char) : Nat :=
  l.foldl (fun a c => a * 10 + (c.toNat - '0'.toNat)) 0

/-- Model of Python's built-in `int(s)` for decimal string literals:
surrounding whitespace is stripped, an optional `+` or `-` sign is allowed,
and the remainder must be a non-empty run of ASCII digits.  `none` models a
raised `ValueError`.  (Unicode digits and `_` digit separators, which CPython
also accepts, are not modelled; no claim depends on them.) -/
def pyInt (s : String) : Option Int :=
  match (pyStrip s).toList with
  | '+' :: rest =>
      if allDigits rest then some (Int.ofNat (decDigitsToNat rest)) else none
  | '-' :: rest =>
      if allDigits rest then some (-(Int.ofNat (decDigitsToNat rest))) else none
  | l => if allDigits l then some (Int.ofNat (decDigitsToNat l)) else none

/-- `format_duration` from `src/test2.py` (the spec's `DurationNormalizer`):
split on `:`; two fields render as minutes/seconds, three as
hours/minutes/seconds, anything else is returned unchanged.  Each field goes
through `int(...)`, which raises `ValueError` on a non-numeric token; a raise
is modelled as `none`. -/
def format_duration (duration : String) : Option String :=
  let parts := pySplit ':' duration
  if parts.length = 2 then
    match pyInt (parts.getD 0 ""), pyInt (parts.getD 1 "") with
    | some m, some s =>
        some (toString m ++ " minutes, " ++ toString s ++ " seconds")
    | _, _ => none
  else if parts.length = 3 then
    match pyInt (parts.getD 0 ""), pyInt (parts.getD 1 ""),
          pyInt (parts.getD 2 "") with
    | some h, some m, some s =>
        some (toString h ++ " hours, " ++ toString m ++ " minutes, " ++
              toString s ++ " seconds")
    | _, _, _ => none
  else some duration

/-- `format_duration` from `src/test.py`: just `duration.strip()`. -/
def format_duration_strip (duration : String) : String := pyStrip duration

/-- The scroll/wait/measure loop of `search_youtube` (both files), run
against an abstract sequence of measured document heights.  `h i` is the
height measured on cycle `i`; `last` is the height measured before the loop
started.  The loop body is `while True`: scroll, sleep, measure `new_height`;
break when `new_height == last_height`, else `last_height = new_height`.
`fuel` bounds the number of cycles the model is willing to unfold;
`some k` means the loop breaks after exactly `k` cycles, `none` means it is
still running after `fuel` cycles (the source loop has no iteration cap). -/
def paginationSteps : Nat → Nat → (Nat → Nat) → Nat → Option Nat
  | 0, _, _, _ => none
  | fuel + 1, last, h, i =>
      if h i = last then some (i + 1)
      else paginationSteps fuel (h i) h (i + 1)

/-- The height that `last_height` holds when cycle `j` begins: the initial
measurement for `j = 0`, otherwise the height measured on cycle `j - 1`. -/
def measuredBefore (last : Nat) (h : Nat → Nat) : Nat → Nat
  | 0 => last
  | j + 1 => h j

/-- A feed whose measured height strictly grows on every cycle
(cycle `i` measures `800 * (i + 2)`; the pre-loop measurement is `800`). -/
def strictIncHeights : Nat → Nat := fun i => 800 * (i + 2)

/-- The scripted feed `[800, 1600, 1600]` of the spec: `800` is measured
before the loop and every in-loop measurement reads `1600`. -/
def stallHeights : Nat → Nat := fun _ => 1600

/-- The same scroll loop over a finite script of measured heights, used by
the session model; once the script is exhausted the feed is taken as stable
(each further measurement repeats the previous one), so the loop breaks.
Returns the number of cycles performed. -/
def scrollLoopList : Nat → List Nat → Nat
  | _, [] => 1
  | last, hd :: tl => if hd = last then 1 else 1 + scrollLoopList hd tl

/-- One `ytd-video-renderer` element, described by the outcomes of every DOM
interaction the per-item loop of `search_youtube` performs on it.
An outer `none` models the corresponding `find_element` / `execute_script`
call raising; for attribute reads, an inner `none` models
`get_attribute` returning Python `None`. -/
structure VideoElem where
  /-- `video.find_element(By.ID, 'video-title')` together with the
  `title` and `href` attributes read from it; `none` = lookup raised. -/
  videoTitleElem : Option (Option String × Option String)
  /-- Result of the duration `execute_script` (already `.trim()`-ed by the
  injected JavaScript); `none` = the script raised. -/
  durationText : Option String
  /-- `.text` of the `yt-formatted-string.metadata-snippet-text` element;
  `none` = lookup raised. -/
  descriptionText : Option String
  /-- Primary thumbnail lookup: `none` = lookup raised, `some src` = the
  `src` attribute (itself possibly `None`). -/
  thumbMain : Option (Option String)
  /-- Alternative `ytd-thumbnail img` lookup, same convention. -/
  thumbAlt : Option (Option String)
deriving DecidableEq, Repr

/-- Result of a Python call as seen by the caller: a returned value or a
propagated exception. -/
inductive PyOutcome (A : Type) where
  | ok (v : A)
  | raised (msg : String)
deriving DecidableEq, Repr

/-- One entry of the `videos` list assembled by `search_youtube`. -/
structure ItemRecord where
  title : String
  url : String
  duration : String
  description : String
  thumbnail_url : Option String
deriving DecidableEq, Repr

/-- Python truthiness of a string-or-`None` value: `None` and `""` are
falsy, every non-empty string is truthy. -/
def truthyOpt : Option String → Bool
  | none => false
  | some s => !(s == "")

/-- The code's acceptance condition `if url and title:` (reachable only when
the title-element lookup did not raise). -/
def titleUrlOk (v : VideoElem) : Bool :=
  match v.videoTitleElem with
  | none => false
  | some (t, u) => truthyOpt u && truthyOpt t

/-- The body of the per-item `for video in video_elements:` loop of
`search_youtube`, for a single element.  `fmt` is the duration formatter
(`format_duration_strip` in `test.py`, `format_duration` in `test2.py`;
`none` = the formatter raised, caught by the duration `try`).  The result is
`some record` when the item is appended to `videos`, `none` when it is
skipped — by the outer per-item `except` (title-element lookup raised) or by
the falsy `if url and title:` check. -/
def extractVideo (fmt : String → Option String) (v : VideoElem) :
    Option ItemRecord :=
  match v.videoTitleElem with
  | none => none
  | some (t, u) =>
      let formattedDuration :=
        match v.durationText with
        | none => "Unknown"
        | some d =>
            match fmt d with
            | none => "Unknown"
            | some f => f
      let desc :=
        match v.descriptionText with
        | none => "No description available"
        | some s => pyStrip s
      let thumb1 : Option String :=
        match v.thumbMain with
        | none => none
        | some src => src
      let thumb2 : Option String :=
        if truthyOpt thumb1 then thumb1
        else
          match v.thumbAlt with
          | none => thumb1
          | some src => src
      if truthyOpt u && truthyOpt t then
        some { title := t.getD "", url := u.getD "",
               duration := formattedDuration, description := desc,
               thumbnail_url := thumb2 }
      else none

/-- The `output_data` dictionary written to
`data_output_files/video_data_<timestamp>.json`. -/
structure OutputData where
  timestamp : String
  videos : List ItemRecord
deriving DecidableEq, Repr

/-- Outcomes of every external interaction one `search_youtube` call
performs.  Each collaborator is modelled as deterministic: a `…Ok := false`
flag means every call to it raises. -/
structure World where
  /-- `webdriver.Chrome(...)` succeeds. -/
  driverOk : Bool
  /-- `driver.get(search_url)` succeeds. -/
  navOk : Bool
  /-- `progress_text.text(...)` (the status callback) succeeds. -/
  textOk : Bool
  /-- `wait.until(...)` finds a `ytd-video-renderer` within the bound
  (`false` = `TimeoutException`). -/
  waitOk : Bool
  /-- `progress_bar.progress(...)` (the progress callback) succeeds. -/
  barOk : Bool
  /-- `driver.execute_script` height/scroll calls of the pagination loop
  succeed. -/
  scriptOk : Bool
  /-- Height measured before the scroll loop starts. -/
  initialHeight : Nat
  /-- Scripted heights measured by the scroll loop (stable afterwards). -/
  heights : List Nat
  /-- The `ytd-video-renderer` elements found after pagination. -/
  elements : List VideoElem
  /-- Folder creation, `open` and `json.dump` of the artifact succeed. -/
  writeOk : Bool
  /-- `driver.quit()` in the `finally` block succeeds. -/
  quitOk : Bool
  /-- Value of `get_current_timestamp()`. -/
  timestamp : String
deriving DecidableEq, Repr

/-- The `try` block of `search_youtube` from `src/test.py`: driver creation,
navigation, status callback, bounded wait, callbacks, pagination, per-item
extraction, artifact write, final callbacks, `return videos`.  The second
component records the artifact written to disk (`none` = no write
happened). -/
def sessionTry (w : World) : PyOutcome (List ItemRecord) × Option OutputData :=
  if !w.driverOk then (PyOutcome.raised "driver creation failed", none)
  else if !w.navOk then (PyOutcome.raised "navigation failed", none)
  else if !w.textOk then (PyOutcome.raised "status callback raised", none)
  else if !w.waitOk then (PyOutcome.raised "timeout waiting for results", none)
  else if !w.barOk then (PyOutcome.raised "progress callback raised", none)
  else if !w.scriptOk then (PyOutcome.raised "execute script raised", none)
  else
    let _cycles := scrollLoopList w.initialHeight w.heights
    let videos := w.elements.filterMap
      (extractVideo (fun d => some (format_duration_strip d)))
    if !w.writeOk then (PyOutcome.raised "artifact write failed", none)
    else (PyOutcome.ok videos, some { timestamp := w.timestamp, videos := videos })

/-- `search_youtube` from `src/test.py`, whole function: the `try` body,
then the `except` handler (log, `progress_text.text("Error …")`, `return
[]` — the status-callback call inside the handler can itself raise), then
the `finally` block (`if driver: driver.quit()`, whose exception replaces
any pending return value or exception).  `PyOutcome.raised` in the first
component models an exception propagating to the caller. -/
def search_youtube (w : World) : PyOutcome (List ItemRecord) × Option OutputData :=
  let afterTry := sessionTry w
  let afterExcept :=
    match afterTry with
    | (PyOutcome.ok v, o) => (PyOutcome.ok v, o)
    | (PyOutcome.raised _, o) =>
        if w.textOk then (PyOutcome.ok ([] : List ItemRecord), o)
        else (PyOutcome.raised "status callback raised", o)
  if w.driverOk && !w.quitOk then (PyOutcome.raised "driver quit raised", afterExcept.2)
  else afterExcept

/-- Identity duration formatter, used to instantiate extraction facts. -/
def fmt0 : String → Option String := fun d => some d

/-- An element on which every lookup succeeds with truthy values. -/
def goodElem : VideoElem :=
  ⟨some (some "Title", some "https://example"), some "3:05",
   some "a description", some (some "https://thumb"), none⟩

/-- The record `search_youtube` (test.py variant) assembles from
`goodElem`. -/
def goodRec : ItemRecord :=
  ⟨"Title", "https://example", "3:05", "a description", some "https://thumb"⟩

/-- An element whose title anchor yields truthy title/href but whose
duration, description and both thumbnail lookups all raise. -/
def bareElem : VideoElem := ⟨some (some "T", some "U"), none, none, none, none⟩

/-- The record extracted from `bareElem`: every optional field at its
sentinel. -/
def bareRec : ItemRecord :=
  ⟨"T", "U", "Unknown", "No description available", none⟩

/-- A world in which every external interaction succeeds and the page holds
one fully extractable element. -/
def allOkWorld : World :=
  { driverOk := true, navOk := true, textOk := true, waitOk := true,
    barOk := true, scriptOk := true, initialHeight := 800,
    heights := [1600, 1600], elements := [goodElem], writeOk := true,
    quitOk := true, timestamp := "20250101-120000" }

/-- Same world except `driver.quit()` raises in the `finally` block. -/
def quitFailWorld : World := { allOkWorld with quitOk := false }

/-- Same world except the initial bounded wait times out. -/
def timeoutWorld : World := { allOkWorld with waitOk := false }

/-- Same world except writing the JSON artifact raises. -/
def writeFailWorld : World := { allOkWorld with writeOk := false }

/-- Same world except the progress-bar callback raises. -/
def barFailWorld : World := { allOkWorld with barOk := false }

/-- Same world with no items on the page. -/
def noElemsWorld : World := { allOkWorld with elements := [] }

/-!  Pagination lemmas shared by the claims about the scroll loop. -/

/-- On a feed whose measured height strictly grows each cycle, the scroll
loop never breaks: whatever fuel the model grants, the loop is still
running. -/
theorem pagination_unbounded (h : Nat → Nat) (hmono : ∀ j, h j < h (j + 1)) :
    ∀ fuel last i, last < h i → paginationSteps fuel last h i = none := by
  intro fuel
  induction fuel with
  | zero => intro last i _; rfl
  | succ n ih =>
      intro last i hlt
      unfold paginationSteps
      rw [if_neg (by omega)]
      exact ih (h i) (i + 1) (hmono i)

/-- Soundness of the break condition: if the loop (started at cycle `i`,
with `last_height` holding the height measured before cycle `i`) breaks
after cycle `k - 1`, then the height measured on cycle `k - 1` equalled the
immediately preceding measurement, and no earlier in-loop measurement did. -/
theorem paginationSteps_stall (h : Nat → Nat) (last : Nat) :
    ∀ fuel i k, paginationSteps fuel (measuredBefore last h i) h i = some k →
      i < k ∧ h (k - 1) = measuredBefore last h (k - 1) ∧
      ∀ j, i ≤ j → j < k - 1 → h j ≠ measuredBefore last h j := by
  intro fuel
  induction fuel with
  | zero => intro i k hk; simp [paginationSteps] at hk
  | succ n ih =>
      intro i k hk
      unfold paginationSteps at hk
      by_cases hstall : h i = measuredBefore last h i
      · rw [if_pos hstall] at hk
        have hki : k = i + 1 := by
          have := Option.some.inj hk
          omega
        subst hki
        refine ⟨by omega, by simpa using hstall, ?_⟩
        intro j h1 h2
        omega
      · rw [if_neg hstall] at hk
        have hrec := ih (i + 1) k hk
        refine ⟨by omega, hrec.2.1, ?_⟩
        intro j h1 h2
        rcases Nat.eq_or_lt_of_le h1 with rfl | hlt
        · exact hstall
        · exact hrec.2.2 j hlt h2

/-- Completeness of the break condition: if cycle `j` is the first cycle
whose measurement equals the immediately preceding one, the loop breaks
after exactly `j + 1` cycles once the fuel covers them. -/
theorem paginationSteps_reaches_stall (h : Nat → Nat) (last j : Nat)
    (hstall : h j = measuredBefore last h j)
    (hmin : ∀ l, l < j → h l ≠ measuredBefore last h l) :
    ∀ fuel i, i ≤ j → j < i + fuel →
      paginationSteps fuel (measuredBefore last h i) h i = some (j + 1) := by
  intro fuel
  induction fuel with
  | zero => intro i h1 h2; omega
  | succ n ih =>
      intro i hij hlt
      unfold paginationSteps
      by_cases hi : i = j
      · subst hi; rw [if_pos hstall]
      · have hij' : i < j := lt_of_le_of_ne hij hi
        rw [if_neg (hmin i hij')]
        exact ih (i + 1) hij' (by omega)

/-- Claim C1, counterexample: the scroll loop has no iteration cap.  On the
strictly growing feed (pre-loop measurement `800`, cycle `i` measuring
`800 * (i + 2)`), the loop is still running after 50 cycles — it does not
stop "after at most `max_iterations` cycles": no such cap exists in the
code. -/
theorem C1_counterexample : paginationSteps 50 800 strictIncHeights 0 = none := by
  decide

/-- Claim C1, amended: the scroll/wait/measure cycle stops only when a
measured height equals the immediately preceding measured height; there is
no `max_iterations` cap, so on a height sequence that strictly increases on
every cycle the loop never stops — for every fuel bound it is still
running. -/
theorem C1_no_iteration_cap (h : Nat → Nat) (hmono : ∀ j, h j < h (j + 1))
    (last : Nat) (hlt : last < h 0) :
    ∀ fuel, paginationSteps fuel last h 0 = none := by
  intro fuel
  exact pagination_unbounded h hmono fuel last 0 hlt

/-- Witness for C1's amended theorem, at the concrete strictly growing
feed. -/
theorem C1_no_iteration_cap_witness :
    paginationSteps 7 800 strictIncHeights 0 = none :=
  C1_no_iteration_cap strictIncHeights
    (fun j => by unfold strictIncHeights; omega) 800
    (by unfold strictIncHeights; omega) 7

/-- Claim C9: the loop stops exactly at the first stall.  (i) If the loop
breaks after `k` cycles then the height measured on the last cycle equals
the immediately preceding measurement and no earlier cycle's did; (ii) if
cycle `j` is the first whose measurement repeats the preceding one, the
loop breaks after exactly `j + 1` cycles; (iii) on the scripted sequence
`[800, 1600, 1600]` (800 measured before the loop) it performs exactly two
cycles. -/
theorem C9_stops_at_first_stall :
    (∀ (h : Nat → Nat) (last fuel k : Nat),
        paginationSteps fuel last h 0 = some k →
        0 < k ∧ h (k - 1) = measuredBefore last h (k - 1) ∧
        ∀ j, j < k - 1 → h j ≠ measuredBefore last h j) ∧
    (∀ (h : Nat → Nat) (last j fuel : Nat),
        h j = measuredBefore last h j →
        (∀ l, l < j → h l ≠ measuredBefore last h l) → j < fuel →
        paginationSteps fuel last h 0 = some (j + 1)) ∧
    paginationSteps 10 800 stallHeights 0 = some 2 := by
  refine ⟨?_, ?_, by decide⟩
  · intro h last fuel k hk
    have := paginationSteps_stall h last fuel 0 k hk
    exact ⟨this.1, this.2.1, fun j hj => this.2.2 j (Nat.zero_le j) hj⟩
  · intro h last j fuel hstall hmin hfuel
    exact paginationSteps_reaches_stall h last j hstall hmin fuel 0
      (Nat.zero_le j) (by omega)

/-- Witness for C9, instantiating the soundness half on the scripted
sequence: the run `[800, 1600, 1600]` breaks after cycle 2, whose
measurement equals the one before it. -/
theorem C9_stops_at_first_stall_witness :
    0 < 2 ∧ stallHeights 1 = measuredBefore 800 stallHeights 1 := by
  have h := C9_stops_at_first_stall.1 stallHeights 800 10 2 (by decide)
  exact ⟨h.1, h.2.1⟩

/-- Claim C8: two numeric colon-separated fields render as
`"<M> minutes, <S> seconds"` and three as
`"<H> hours, <M> minutes, <S> seconds"` (numerals via `int(...)`, hence no
leading zeros, and the unit words are always plural), with the spec's two
concrete instances. -/
theorem C8_numeric_fields :
    (∀ (d a b : String) (m s : Int), pySplit ':' d = [a, b] →
        pyInt a = some m → pyInt b = some s →
        format_duration d =
          some (toString m ++ " minutes, " ++ toString s ++ " seconds")) ∧
    (∀ (d a b c : String) (x y z : Int), pySplit ':' d = [a, b, c] →
        pyInt a = some x → pyInt b = some y → pyInt c = some z →
        format_duration d =
          some (toString x ++ " hours, " ++ toString y ++ " minutes, " ++
                toString z ++ " seconds")) ∧
    format_duration "05:30" = some "5 minutes, 30 seconds" ∧
    format_duration "1:02:03" = some "1 hours, 2 minutes, 3 seconds" := by
  refine ⟨?_, ?_, by decide, by decide⟩
  · intro d a b m s hsplit ha hb
    unfold format_duration
    rw [hsplit]
    simp [ha, hb]
  · intro d a b c x y z hsplit ha hb hc
    unfold format_duration
    rw [hsplit]
    simp [ha, hb, hc]

/-- Witness for C8 at the spec's first concrete instance. -/
theorem C8_numeric_fields_witness :
    pySplit ':' "05:30" = ["05", "30"] ∧ pyInt "05" = some 5 ∧
    pyInt "30" = some 30 ∧
    format_duration "05:30" = some "5 minutes, 30 seconds" :=
  ⟨by decide, by decide, by decide,
   C8_numeric_fields.1 "05:30" "05" "30" 5 30 (by decide) (by decide)
     (by decide)⟩

/-- Claim C4, counterexample: on an input whose colon-split yields exactly
two non-numeric fields, `format_duration` does not return the input
unchanged — `int('a')` raises `ValueError` (modelled as `none`). -/
theorem C4_counterexample :
    format_duration "a:b" = none ∧ format_duration "a:b" ≠ some "a:b" := by
  constructor
  · decide
  · decide

/-- Claim C4, amended: `DurationNormalizer` passes any input through
unchanged when its colon-split yields a field count other than two or three
(in particular `""` and `"abc"`), but an input with exactly two or three
fields containing a non-numeric token — in any position — makes `int(...)`
raise `ValueError` instead of passing through. -/
theorem C4_passthrough_off_happy_path :
    (∀ d : String, (pySplit ':' d).length ≠ 2 → (pySplit ':' d).length ≠ 3 →
        format_duration d = some d) ∧
    format_duration "" = some "" ∧
    format_duration "abc" = some "abc" ∧
    (∀ (d a b : String), pySplit ':' d = [a, b] →
        pyInt a = none ∨ pyInt b = none → format_duration d = none) ∧
    (∀ (d a b c : String), pySplit ':' d = [a, b, c] →
        pyInt a = none ∨ pyInt b = none ∨ pyInt c = none →
        format_duration d = none) := by
  refine ⟨?_, by decide, by decide, ?_, ?_⟩
  · intro d h2 h3
    unfold format_duration
    rw [if_neg h2, if_neg h3]
  · intro d a b hsplit hnone
    unfold format_duration
    rw [hsplit]
    rcases hnone with ha | hb
    · simp [ha]
    · cases hpa : pyInt a <;> simp [hpa, hb]
  · intro d a b c hsplit hnone
    unfold format_duration
    rw [hsplit]
    rcases hnone with ha | hb | hc
    · simp [ha]
    · cases hpa : pyInt a <;> simp [hpa, hb]
    · cases hpa : pyInt a <;> cases hpb : pyInt b <;> simp [hpa, hpb, hc]

/-- Witness for C4's amended theorem: a four-field input passes through,
and two-field inputs raise whether the non-numeric token is the first or
the second field. -/
theorem C4_passthrough_off_happy_path_witness :
    format_duration "1:2:3:4" = some "1:2:3:4" ∧
    format_duration "x:y" = none ∧
    format_duration "1:x" = none :=
  ⟨C4_passthrough_off_happy_path.1 "1:2:3:4" (by decide) (by decide),
   C4_passthrough_off_happy_path.2.2.2.1 "x:y" "x" "y" (by decide)
     (Or.inl (by decide)),
   C4_passthrough_off_happy_path.2.2.2.1 "1:x" "1" "x" (by decide)
     (Or.inr (by decide))⟩

/-- `None` is falsy. -/
theorem truthyOpt_none : truthyOpt none = false := rfl

/-- Claim C7: an item yields a record exactly when its title anchor was
found with truthy `title` and `href` attributes (`titleUrlOk`), and for an
emitted record a failed duration lookup (or a formatter raise), a failed
description lookup, and failure of both thumbnail lookups degrade to
`"Unknown"`, `"No description available"` and `null` respectively — never
to rejection. -/
theorem C7_record_invariant (fmt : String → Option String) (v : VideoElem) :
    ((extractVideo fmt v).isSome = true ↔ titleUrlOk v = true) ∧
    (titleUrlOk v = true → v.durationText = none →
      (extractVideo fmt v).map ItemRecord.duration = some "Unknown") ∧
    (titleUrlOk v = true → ∀ d, v.durationText = some d → fmt d = none →
      (extractVideo fmt v).map ItemRecord.duration = some "Unknown") ∧
    (titleUrlOk v = true → v.descriptionText = none →
      (extractVideo fmt v).map ItemRecord.description =
        some "No description available") ∧
    (titleUrlOk v = true → v.thumbMain = none → v.thumbAlt = none →
      (extractVideo fmt v).map ItemRecord.thumbnail_url = some none) := by
  obtain ⟨te, dt, de, tm, ta⟩ := v
  cases te with
  | none => simp [extractVideo, titleUrlOk]
  | some p =>
      obtain ⟨t, u⟩ := p
      by_cases htu : (truthyOpt u && truthyOpt t) = true
      · refine ⟨by simp [extractVideo, titleUrlOk, htu], ?_, ?_, ?_, ?_⟩
        · intro _ hdt
          subst hdt
          simp [extractVideo, htu]
        · intro _ d hdt hfmt
          subst hdt
          simp [extractVideo, htu, hfmt]
        · intro _ hde
          subst hde
          simp [extractVideo, htu]
        · intro _ htm hta
          subst htm; subst hta
          simp [extractVideo, htu, truthyOpt_none]
      · rw [Bool.not_eq_true] at htu
        refine ⟨by simp [extractVideo, titleUrlOk, htu], ?_, ?_, ?_, ?_⟩ <;>
          simp [titleUrlOk, htu]

/-- Witness for C7 at `bareElem` (truthy title/url; duration, description
and both thumbnail lookups raise): the record is emitted with every
optional field at its sentinel. -/
theorem C7_record_invariant_witness :
    (extractVideo fmt0 bareElem).isSome = true ∧
    (extractVideo fmt0 bareElem).map ItemRecord.duration = some "Unknown" ∧
    (extractVideo fmt0 bareElem).map ItemRecord.description =
      some "No description available" ∧
    (extractVideo fmt0 bareElem).map ItemRecord.thumbnail_url = some none :=
  ⟨(C7_record_invariant fmt0 bareElem).1.mpr (by decide),
   (C7_record_invariant fmt0 bareElem).2.1 (by decide) rfl,
   (C7_record_invariant fmt0 bareElem).2.2.2.1 (by decide) rfl,
   (C7_record_invariant fmt0 bareElem).2.2.2.2 (by decide) rfl rfl⟩

/-- Claim C10: the acceptance check `if url and title:` tests Python
truthiness — an item whose title-anchor lookup succeeded but whose `title`
or `href` attribute came back as `None` or the empty string is dropped. -/
theorem C10_truthiness_required (fmt : String → Option String)
    (t u : Option String) (dt de : Option String)
    (tm ta : Option (Option String))
    (h : t = none ∨ t = some "" ∨ u = none ∨ u = some "") :
    extractVideo fmt ⟨some (t, u), dt, de, tm, ta⟩ = none := by
  rcases h with rfl | rfl | rfl | rfl <;>
    simp [extractVideo, truthyOpt]

/-- Witness for C10: an item with an empty-string title attribute and a
truthy href is rejected even though the attribute lookup succeeded. -/
theorem C10_truthiness_required_witness :
    extractVideo fmt0
      ⟨some (some "", some "https://x"), none, none, none, none⟩ = none :=
  C10_truthiness_required fmt0 (some "") (some "https://x") none none none
    none (Or.inr (Or.inl rfl))

/-- Claim C2, counterexample: a resource-release failure does propagate.
In a world where everything succeeds except `driver.quit()`, the unguarded
`finally` block re-raises and `search_youtube` raises to its caller instead
of returning a result list. -/
theorem C2_counterexample :
    (search_youtube quitFailWorld).1 = PyOutcome.raised "driver quit raised" := by
  decide

/-- Claim C2, amended: provided the `finally` release (`driver.quit()`) and
the status callback (`progress_text.text`, also called inside the `except`
handler) do not themselves raise, `search_youtube` never raises to its
caller — every internal failure degrades to a returned list — and on an
initial-load timeout it returns the empty list. -/
theorem C2_nonthrowing_given_release_ok (w : World) (hq : w.quitOk = true)
    (ht : w.textOk = true) :
    (∃ v, (search_youtube w).1 = PyOutcome.ok v) ∧
    (w.waitOk = false → (search_youtube w).1 = PyOutcome.ok []) := by
  unfold search_youtube sessionTry
  rcases hd : w.driverOk <;> rcases hn : w.navOk <;> rcases hw : w.waitOk <;>
    rcases hb : w.barOk <;> rcases hs : w.scriptOk <;>
    rcases hwr : w.writeOk <;> simp [hq, ht, hd, hn, hw, hb, hs, hwr]

/-- Witness for C2's amended theorem at the all-success world. -/
theorem C2_nonthrowing_given_release_ok_witness :
    (∃ v, (search_youtube allOkWorld).1 = PyOutcome.ok v) ∧
    (allOkWorld.waitOk = false → (search_youtube allOkWorld).1 = PyOutcome.ok []) :=
  C2_nonthrowing_given_release_ok allOkWorld rfl rfl

/-- Claim C3, counterexample: when the initial load times out, the `except`
handler returns the empty list without ever reaching the artifact write —
no JSON file is produced, contradicting "the output JSON artifact is
written" for every invocation. -/
theorem C3_counterexample :
    (search_youtube timeoutWorld).2 = none ∧
    (search_youtube timeoutWorld).1 = PyOutcome.ok [] := by
  constructor
  · decide
  · decide

/-- Claim C3, amended: on every invocation that reaches the persistence
step without an exception (driver creation, navigation, callbacks, wait,
pagination scripts and the write itself all succeed), the artifact is
written and contains the `videos` key with the (possibly empty) record
list; an invocation whose initial load times out writes no artifact and
returns the empty list. -/
theorem C3_artifact_on_clean_run (w : World) (h1 : w.driverOk = true)
    (h2 : w.navOk = true) (h3 : w.textOk = true) (h4 : w.waitOk = true)
    (h5 : w.barOk = true) (h6 : w.scriptOk = true) (h7 : w.writeOk = true) :
    (search_youtube w).2 =
      some { timestamp := w.timestamp,
             videos := w.elements.filterMap
               (extractVideo (fun d => some (format_duration_strip d))) } := by
  unfold search_youtube sessionTry
  rcases hqq : w.quitOk <;> simp [h1, h2, h3, h4, h5, h6, h7, hqq]

/-- Witness for C3's amended theorem: a clean run over an empty item list
still writes the artifact, with `videos := []`. -/
theorem C3_artifact_on_clean_run_witness :
    (search_youtube noElemsWorld).2 =
      some { timestamp := "20250101-120000", videos := [] } :=
  C3_artifact_on_clean_run noElemsWorld rfl rfl rfl rfl rfl rfl rfl

/-- Claim C5, counterexample: with one fully extractable item assembled but
a failing artifact write, `search_youtube` returns the empty list — the
already-assembled record list (`[goodRec]`) is discarded, not returned. -/
theorem C5_counterexample :
    (search_youtube writeFailWorld).1 = PyOutcome.ok [] ∧
    writeFailWorld.elements.filterMap
      (extractVideo (fun d => some (format_duration_strip d))) = [goodRec] := by
  constructor
  · decide
  · decide

/-- Claim C5, amended: a persistence failure does not propagate — it is
caught by the session's top-level `except` handler — but it is fatal to the
in-memory result: `search_youtube` returns the empty list, discarding the
assembled records, and no artifact is recorded. -/
theorem C5_write_failure_discards_records (w : World) (h1 : w.driverOk = true)
    (h2 : w.navOk = true) (h3 : w.textOk = true) (h4 : w.waitOk = true)
    (h5 : w.barOk = true) (h6 : w.scriptOk = true) (hq : w.quitOk = true)
    (hw : w.writeOk = false) :
    (search_youtube w).1 = PyOutcome.ok [] ∧ (search_youtube w).2 = none := by
  unfold search_youtube sessionTry
  simp [h1, h2, h3, h4, h5, h6, hq, hw]

/-- Witness for C5's amended theorem. -/
theorem C5_write_failure_discards_records_witness :
    (search_youtube writeFailWorld).1 = PyOutcome.ok [] ∧
    (search_youtube writeFailWorld).2 = none :=
  C5_write_failure_discards_records writeFailWorld rfl rfl rfl rfl rfl rfl
    rfl rfl

/-- Claim C6, counterexample: two worlds identical except that the
progress-bar callback raises.  With the callback succeeding the scrape
returns the assembled record; with it raising, the top-level handler
returns the empty list — the returned record list is not the same, so
callback failures do affect scraping. -/
theorem C6_counterexample :
    (search_youtube allOkWorld).1 = PyOutcome.ok [goodRec] ∧
    (search_youtube barFailWorld).1 = PyOutcome.ok [] ∧
    barFailWorld = { allOkWorld with barOk := false } ∧
    ([goodRec] : List ItemRecord) ≠ [] := by
  refine ⟨by decide, by decide, by decide, by decide⟩

/-- Claim C6, amended: the progress callbacks are invoked inside the
guarded region, so a progress-bar callback failure does not propagate (the
top-level handler catches it, given a working status callback and release),
but it is not fire-and-forget: it aborts the scrape and the session returns
the empty list instead of the assembled records. -/
theorem C6_bar_failure_aborts_scrape (w : World) (h1 : w.driverOk = true)
    (h2 : w.navOk = true) (h3 : w.textOk = true) (h4 : w.waitOk = true)
    (hq : w.quitOk = true) (hb : w.barOk = false) :
    (search_youtube w).1 = PyOutcome.ok [] := by
  unfold search_youtube sessionTry
  simp [h1, h2, h3, h4, hq, hb]

/-- Witness for C6's amended theorem. -/
theorem C6_bar_failure_aborts_scrape_witness :
    (search_youtube barFailWorld).1 = PyOutcome.ok [] :=
  C6_bar_failure_aborts_scrape barFailWorld rfl rfl rfl rfl rfl rfl
